import Mathlib

/-!
Verification development for the vehicle-tracker repository (src/src/App.jsx).

The file shallowly embeds the playback & kinematics engine of the source:

* the pure kinematics calculators `calculateDistanceKm`, `calculateSpeedKmH`,
  `formatElapsedTime` and the progress computation (App.jsx lines 8-60 and
  216-219);
* the playback controller: the React state `(routeData, currentIndex,
  isPlaying)` together with the handlers `togglePlay`, `resetSimulation`
  (lines 190-203), the simulation-effect ticker (lines 166-186) and the
  disabled-button guards on the controls (lines 364-381);
* the interpolation animator of `AnimatedMarker` (lines 67-112), modelled as
  the set of requestAnimationFrame loops currently scheduled, with one frame
  step running every live callback in registration order.

Geographic coordinates are real numbers; timestamps are the integer epoch
milliseconds produced by `new Date(ts).getTime()`; the animator model uses
rational positions and times so that concrete scenarios can be decided.
-/

/-- Waypoint as normalized by the data-loading effect (App.jsx lines 147-151):
latitude, longitude and a timestamp.  The timestamp field holds the epoch
milliseconds of the ISO string, i.e. the value `new Date(ts).getTime()`
returns wherever the source consumes the timestamp. -/
structure Waypoint where
  lat : ℝ
  lng : ℝ
  timestamp : ℤ

/-- JavaScript `Math.atan2 y x`, expressed with `Real.arctan` by quadrant. -/
noncomputable def atan2 (y x : ℝ) : ℝ :=
  if 0 < x then Real.arctan (y / x)
  else if x < 0 ∧ 0 ≤ y then Real.arctan (y / x) + Real.pi
  else if x < 0 ∧ y < 0 then Real.arctan (y / x) - Real.pi
  else if x = 0 ∧ 0 < y then Real.pi / 2
  else if x = 0 ∧ y < 0 then -(Real.pi / 2)
  else 0

/-- Haversine great-circle distance, App.jsx lines 8-20. -/
noncomputable def calculateDistanceKm (lat1 lon1 lat2 lon2 : ℝ) : ℝ :=
  let R : ℝ := 6371
  let dLat := (lat2 - lat1) * Real.pi / 180
  let dLon := (lon2 - lon1) * Real.pi / 180
  let a :=
    Real.sin (dLat / 2) * Real.sin (dLat / 2) +
      Real.cos (lat1 * Real.pi / 180) * Real.cos (lat2 * Real.pi / 180) *
        Real.sin (dLon / 2) * Real.sin (dLon / 2)
  let c := 2 * atan2 (Real.sqrt a) (Real.sqrt (1 - a))
  R * c

/-- Distance between two waypoints, as `calculateSpeedKmH` invokes
`calculateDistanceKm` on its two points (App.jsx lines 34-37). -/
noncomputable def distBetween (a b : Waypoint) : ℝ :=
  calculateDistanceKm a.lat a.lng b.lat b.lng

/-- JavaScript array indexing `routeData[i]` for an arbitrary integer index:
`undefined` (here `none`) whenever `i` is negative or beyond the last slot. -/
def jsIndex {α : Type} (l : List α) (i : ℤ) : Option α :=
  if 0 ≤ i then l[i.toNat]? else none

/-- Value of `x.toFixed 2` read back as a number: `x` rounded to two decimal
places. -/
noncomputable def round2 (x : ℝ) : ℝ := (round (x * 100) : ℝ) / 100

/-- Result of `calculateSpeedKmH`: the string sentinel `0.00`, the sentinel
`N/A`, or a speed value formatted with `toFixed 2` (carried as the rounded
numeric value). -/
inductive SpeedResult where
  | zero00 : SpeedResult
  | na : SpeedResult
  | speed : ℝ → SpeedResult

/-- Speed between the previous and current point, App.jsx lines 26-46. -/
noncomputable def calculateSpeedKmH (currentIndex : ℤ) (routeData : List Waypoint) :
    SpeedResult :=
  if currentIndex = 0 ∨ routeData.length ≤ 1 then .zero00
  else
    match jsIndex routeData currentIndex, jsIndex routeData (currentIndex - 1) with
    | some currPoint, some prevPoint =>
      let distanceKm := distBetween prevPoint currPoint
      let timeDeltaMs : ℤ := currPoint.timestamp - prevPoint.timestamp
      let timeDeltaHours : ℝ := (timeDeltaMs : ℝ) / (1000 * 60 * 60)
      if timeDeltaHours ≤ 0 then .na
      else .speed (round2 (distanceKm / timeDeltaHours))
    | _, _ => .zero00

/-- JavaScript `String(n).padStart 2 "0"`. -/
def padStart2 (s : String) : String :=
  if 2 ≤ s.length then s
  else if s.length = 1 then "0" ++ s
  else "00"

/-- JavaScript remainder `a % b`: truncating division, sign of the dividend. -/
def jsRem (a b : ℤ) : ℤ := a - b * (Int.tdiv a b)

/-- Elapsed-time label, App.jsx lines 51-60.  The arguments are the two
timestamps (`none` models an absent/null timestamp, which is falsy in the
source's guard). -/
def formatElapsedTime (startTime currentTime : Option ℤ) : String :=
  match startTime, currentTime with
  | some s, some c =>
    let deltaMs := c - s
    let seconds := Int.fdiv deltaMs 1000
    let minutes := Int.fdiv seconds 60
    let remainingSeconds := jsRem seconds 60
    padStart2 (toString minutes) ++ ":" ++ padStart2 (toString remainingSeconds)
  | _, _ => "00:00"

example : formatElapsedTime (some 0) (some 4503000) = "75:03" := by decide

/-- React state of the `App` component that the playback engine owns
(App.jsx lines 117-119): the loaded route, the current waypoint index and the
playing flag. -/
structure SimState where
  routeData : List Waypoint
  currentIndex : ℕ
  isPlaying : Bool

/-- Initial component state: `useState([])`, `useState(0)`, `useState(false)`
(App.jsx lines 117-119). -/
def initialState : SimState :=
  { routeData := [], currentIndex := 0, isPlaying := false }

/-- Data loading (App.jsx lines 140-162): the fetched route replaces
`routeData`; `currentIndex` and `isPlaying` are not touched. -/
def loadRoute (data : List Waypoint) (s : SimState) : SimState :=
  { s with routeData := data }

/-- Guard of the simulation effect (App.jsx line 167):
`isPlaying && routeData.length > 0 && currentIndex < routeData.length - 1`.
The interval (the ticker) is scheduled exactly while this holds; over the
integers `currentIndex < length - 1` is `currentIndex + 1 < length`, which is
also faithful at `length = 0`. -/
def tickerActive (s : SimState) : Bool :=
  s.isPlaying && decide (0 < s.routeData.length) &&
    decide (s.currentIndex + 1 < s.routeData.length)

/-- Functional updater passed to `setCurrentIndex` by the interval callback
(App.jsx lines 169-176): at or past the last index stop playing and keep the
index, otherwise advance by one.  Over the integers `prevIndex >=
routeData.length - 1` is `routeData.length <= prevIndex + 1`. -/
def tickBody (s : SimState) : SimState :=
  if s.routeData.length ≤ s.currentIndex + 1 then { s with isPlaying := false }
  else { s with currentIndex := s.currentIndex + 1 }

/-- One tick event.  A tick only fires while the effect's interval is
scheduled, i.e. while `tickerActive` holds; once the guard fails the effect's
cleanup (App.jsx lines 181-185) has cleared the interval and no callback
runs. -/
def tick (s : SimState) : SimState :=
  if tickerActive s then tickBody s else s

/-- Runs `k` successive tick events. -/
def ticks (k : ℕ) (s : SimState) : SimState :=
  match k with
  | 0 => s
  | k + 1 => ticks k (tick s)

/-- Click handler of the play/pause button (App.jsx lines 190-198).  Over the
integers `currentIndex >= routeData.length - 1` is
`routeData.length <= currentIndex + 1` (also faithful at `length = 0`, where
the JavaScript comparison `0 >= -1` holds). -/
def togglePlay (s : SimState) : SimState :=
  if s.routeData.length ≤ s.currentIndex + 1 then
    { s with currentIndex := 0, isPlaying := true }
  else
    { s with isPlaying := !s.isPlaying }

/-- Click handler of the reset button (App.jsx lines 200-203). -/
def resetSimulation (s : SimState) : SimState :=
  { s with isPlaying := false, currentIndex := 0 }

/-- The play command at the user-interface boundary: the play/pause button
carries `disabled={routeData.length === 0}` (App.jsx line 366), so the click
handler only ever runs on a non-empty route. -/
def playCommand (s : SimState) : SimState :=
  if s.routeData.length = 0 then s else togglePlay s

/-- The reset command at the user-interface boundary: the reset button
carries `disabled={routeData.length === 0}` (App.jsx line 377). -/
def resetCommand (s : SimState) : SimState :=
  if s.routeData.length = 0 then s else resetSimulation s

/-- The four playback statuses of the specification's state machine. -/
inductive Status where
  | idle : Status
  | playing : Status
  | paused : Status
  | completed : Status
  deriving DecidableEq

/-- Refinement map from the code's `(routeData, currentIndex, isPlaying)`
state to the specification's status.  The code keeps only the boolean
`isPlaying`, so the four statuses are read off the observables: an empty
route is `idle`; a state whose ticker is scheduled is `playing`; a state that
has advanced to the terminal index and whose ticker is gone is `completed`
(the code leaves `isPlaying` true at the end of a run — the interval is
simply never re-created once `currentIndex` reaches the last slot); otherwise
the `isPlaying` flag separates `playing` from the stopped states, and a
stopped state is `idle` at index 0 and `paused` further in. -/
def status (s : SimState) : Status :=
  if s.routeData.length = 0 then .idle
  else if tickerActive s then .playing
  else if s.routeData.length ≤ s.currentIndex + 1 ∧ 0 < s.currentIndex then .completed
  else if s.isPlaying then .playing
  else if s.currentIndex = 0 then .idle
  else .paused

/-- Validity of `currentIndex` (the claim-C4 invariant): on a non-empty route
the index denotes an existing waypoint. -/
def inv (s : SimState) : Prop :=
  0 < s.routeData.length → s.currentIndex < s.routeData.length

example : inv initialState := fun h => absurd h (by decide)

/-- Progress percentage (App.jsx lines 217-219):
`((currentIndex + 1) / routeData.length) * 100`, or `0` on an empty route. -/
def progressPercentage (currentIndex len : ℕ) : ℚ :=
  if 0 < len then ((currentIndex + 1 : ℚ) / (len : ℚ)) * 100 else 0

/-- The specification's `progressFraction`: the progress bar width rescaled
from percent to a fraction. -/
def progressFraction (currentIndex len : ℕ) : ℚ :=
  progressPercentage currentIndex len / 100

/-- One interpolation loop of `AnimatedMarker` (App.jsx lines 84-104): the
closure state captured when the effect registered `animate` — start and end
coordinates, the `performance.now()` reading at registration, and the
duration.  Positions and times are rationals so that concrete runs can be
decided. -/
structure AnimLoop where
  startLat : ℚ
  startLng : ℚ
  endLat : ℚ
  endLng : ℚ
  startTime : ℚ
  duration : ℚ
  deriving DecidableEq

/-- Animator state: the requestAnimationFrame loops currently scheduled, the
`prevPositionRef` ref, and the marker position last written with
`setLatLng`. -/
structure AnimatorState where
  loops : List AnimLoop
  prevPositionRef : Option (ℚ × ℚ)
  markerPos : Option (ℚ × ℚ)
  deriving DecidableEq

/-- The `AnimatedMarker` effect body on a position-prop change (App.jsx lines
72-109), run at clock reading `now` with the new target `pos`: if the
previous position is absent or equal to the target, snap (only the ref is
updated); otherwise register a new `animate` loop.  The effect has no cleanup
and never calls `cancelAnimationFrame`, so loops already in `loops` are left
scheduled. -/
def animEffect (pos : ℚ × ℚ) (now dur : ℚ) (st : AnimatorState) : AnimatorState :=
  match st.prevPositionRef with
  | none => { st with prevPositionRef := some pos }
  | some startLatLng =>
    if startLatLng.1 = pos.1 ∧ startLatLng.2 = pos.2 then
      { st with prevPositionRef := some pos }
    else
      { st with
          loops := st.loops ++
            [{ startLat := startLatLng.1, startLng := startLatLng.2,
               endLat := pos.1, endLng := pos.2, startTime := now, duration := dur }] }

/-- The coordinates one `animate` callback writes with `marker.setLatLng` at
clock reading `now` (App.jsx lines 86-94): linear interpolation at progress
`min 1 ((now - startTime) / duration)`. -/
def frameWrite (now : ℚ) (L : AnimLoop) : ℚ × ℚ :=
  let progress := min 1 ((now - L.startTime) / L.duration)
  (L.startLat + (L.endLat - L.startLat) * progress,
    L.startLng + (L.endLng - L.startLng) * progress)

/-- One display frame at clock reading `now`: every scheduled callback runs in
registration order.  A callback with progress below 1 writes the interpolated
position and re-schedules itself (App.jsx lines 96-97); one at progress 1
writes `endLatLng`, updates `prevPositionRef`, and does not re-schedule
(lines 98-101). -/
def runFrame (now : ℚ) (st : AnimatorState) : AnimatorState :=
  st.loops.foldl
    (fun acc L =>
      if (now - L.startTime) / L.duration < 1 then
        { acc with markerPos := some (frameWrite now L), loops := acc.loops ++ [L] }
      else
        { acc with markerPos := some (L.endLat, L.endLng),
                   prevPositionRef := some (L.endLat, L.endLng) })
    { st with loops := [] }

/-- First sample waypoint (the Hyderabad map center, App.jsx line 125). -/
def wA : Waypoint := { lat := 17.385044, lng := 78.486671, timestamp := 0 }

/-- Second sample waypoint, ten seconds after the first. -/
def wB : Waypoint := { lat := 17.3855, lng := 78.4867, timestamp := 10000 }

/-- Third sample waypoint, with a timestamp earlier than the second. -/
def wC : Waypoint := { lat := 17.386, lng := 78.4869, timestamp := 5000 }

/-- A one-waypoint route. -/
def demoRoute1 : List Waypoint := [wA]

/-- A two-waypoint route. -/
def demoRoute2 : List Waypoint := [wA, wB]

/-- A three-waypoint route whose last timestamp goes backwards. -/
def demoRoute3 : List Waypoint := [wA, wB, wC]

lemma progressFraction_eq (i len : ℕ) (h : 0 < len) :
    progressFraction i len = ((i : ℚ) + 1) / (len : ℚ) := by
  unfold progressFraction progressPercentage
  rw [if_pos h]
  ring

/-- C8: `distBetween` is symmetric, and the distance from a waypoint to
itself is zero. -/
theorem distance_symm_and_self_zero :
    (∀ a b : Waypoint, distBetween a b = distBetween b a) ∧
      (∀ a : Waypoint, distBetween a a = 0) := by
  constructor
  · intro a b
    simp only [distBetween, calculateDistanceKm]
    rw [show (b.lat - a.lat) * Real.pi / 180 / 2
          = -((a.lat - b.lat) * Real.pi / 180 / 2) by ring,
        show (b.lng - a.lng) * Real.pi / 180 / 2
          = -((a.lng - b.lng) * Real.pi / 180 / 2) by ring]
    simp only [Real.sin_neg]
    ring_nf
  · intro a
    norm_num [distBetween, calculateDistanceKm, atan2, Real.sin_zero,
      Real.sqrt_zero, Real.sqrt_one, Real.arctan_zero]

/-- C9: `progressFraction` is `(index + 1) / length` for a positive length and
`0` for length zero; it lies in `[0, 1]` on valid indices and is exactly `1`
at the last index. -/
theorem progress_fraction_spec :
    (∀ i, progressFraction i 0 = 0) ∧
    (∀ i len, 0 < len → progressFraction i len = ((i : ℚ) + 1) / (len : ℚ)) ∧
    (∀ i len, i < len →
      0 ≤ progressFraction i len ∧ progressFraction i len ≤ 1) ∧
    (∀ len, 0 < len → progressFraction (len - 1) len = 1) := by
  refine ⟨?_, ?_, ?_, ?_⟩
  · intro i
    simp [progressFraction, progressPercentage]
  · exact progressFraction_eq
  · intro i len h
    have hlen : 0 < len := lt_of_le_of_lt (Nat.zero_le i) h
    rw [progressFraction_eq i len hlen]
    constructor
    · positivity
    · rw [div_le_one (by exact_mod_cast hlen)]
      exact_mod_cast Nat.succ_le_of_lt h
  · intro len h
    rw [progressFraction_eq (len - 1) len h]
    have h1 : ((len - 1 : ℕ) : ℚ) + 1 = (len : ℚ) := by
      exact_mod_cast Nat.succ_pred_eq_of_pos h
    rw [h1]
    exact div_self (by exact_mod_cast h.ne')

theorem progress_fraction_spec_witness :
    0 < 4 ∧ progressFraction 3 4 = 1 :=
  ⟨by decide, progress_fraction_spec.2.2.2 4 (by decide)⟩

/-- C10: `calculateSpeedKmH` is total over all integer indices: whenever the
index is out of range (so the point at the index or at the previous index is
`undefined`), it returns the `0.00` sentinel instead of failing. -/
theorem speed_total_out_of_range (seq : List Waypoint) (i : ℤ)
    (h : i < 0 ∨ (seq.length : ℤ) ≤ i) :
    calculateSpeedKmH i seq = SpeedResult.zero00 := by
  unfold calculateSpeedKmH
  by_cases h0 : i = 0 ∨ seq.length ≤ 1
  · rw [if_pos h0]
  · rw [if_neg h0]
    have hnone : jsIndex seq i = none := by
      unfold jsIndex
      rcases h with hneg | hbig
      · rw [if_neg (by omega)]
      · rw [if_pos (by omega)]
        exact List.getElem?_eq_none (by omega)
    rw [hnone]

theorem speed_total_out_of_range_witness :
    ((5 : ℤ) < 0 ∨ ((demoRoute2.length : ℤ) ≤ 5)) ∧
      calculateSpeedKmH 5 demoRoute2 = SpeedResult.zero00 :=
  ⟨by decide, speed_total_out_of_range demoRoute2 5 (by decide)⟩

/-- C7: the elapsed label is `00:00` when either timestamp is absent;
otherwise it is the zero-padded minutes and remaining seconds of the delta,
with the minutes field not capped at 59 — 75 minutes 3 seconds renders as
`75:03`, not `01:15:03`. -/
theorem elapsed_label_spec :
    (∀ c, formatElapsedTime none c = "00:00") ∧
    (∀ s, formatElapsedTime s none = "00:00") ∧
    (∀ m r : ℤ, 0 ≤ m → 0 ≤ r → r < 60 →
      formatElapsedTime (some 0) (some ((m * 60 + r) * 1000)) =
        padStart2 (toString m) ++ ":" ++ padStart2 (toString r)) ∧
    formatElapsedTime (some 0) (some 4503000) = "75:03" ∧
    formatElapsedTime (some 0) (some 4503000) ≠ "01:15:03" := by
  refine ⟨?_, ?_, ?_, by decide, by decide⟩
  · intro c
    cases c <;> rfl
  · intro s
    cases s <;> rfl
  · intro m r hm hr hr60
    simp only [formatElapsedTime]
    have h1 : Int.fdiv ((m * 60 + r) * 1000 - 0) 1000 = m * 60 + r := by
      rw [Int.fdiv_eq_ediv _ (by norm_num)]
      omega
    have h2 : Int.fdiv (m * 60 + r) 60 = m := by
      rw [Int.fdiv_eq_ediv _ (by norm_num)]
      omega
    have h3 : jsRem (m * 60 + r) 60 = r := by
      unfold jsRem
      rw [Int.tdiv_eq_ediv (by omega) (by norm_num)]
      omega
    rw [h1, h2, h3]

theorem elapsed_label_spec_witness :
    (0 : ℤ) ≤ 75 ∧ (0 : ℤ) ≤ 3 ∧ (3 : ℤ) < 60 ∧
      formatElapsedTime (some 0) (some ((75 * 60 + 3) * 1000)) =
        padStart2 (toString (75 : ℤ)) ++ ":" ++ padStart2 (toString (3 : ℤ)) :=
  ⟨by decide, by decide, by decide,
    elapsed_label_spec.2.2.1 75 3 (by decide) (by decide) (by decide)⟩

/-- C3: on an empty waypoint list the play and reset commands are no-ops —
their buttons are disabled, so the state is unchanged, the status stays
`idle` (play in particular does not reach `playing`) and `currentIndex`
stays 0. -/
theorem empty_route_commands_noop (s : SimState) (h : s.routeData.length = 0)
    (h0 : s.currentIndex = 0) :
    playCommand s = s ∧ resetCommand s = s ∧ status s = Status.idle ∧
      (playCommand s).currentIndex = 0 ∧ status (playCommand s) = Status.idle ∧
      (resetCommand s).currentIndex = 0 ∧ status (resetCommand s) = Status.idle := by
  have hp : playCommand s = s := by
    unfold playCommand
    rw [if_pos h]
  have hr : resetCommand s = s := by
    unfold resetCommand
    rw [if_pos h]
  have hst : status s = Status.idle := by
    unfold status
    rw [if_pos h]
  exact ⟨hp, hr, hst, by rw [hp, h0], by rw [hp, hst], by rw [hr, h0], by rw [hr, hst]⟩

theorem empty_route_commands_noop_witness :
    initialState.routeData.length = 0 ∧ initialState.currentIndex = 0 ∧
      playCommand initialState = initialState ∧
      resetCommand initialState = initialState ∧
      status initialState = Status.idle :=
  ⟨rfl, rfl, (empty_route_commands_noop initialState rfl rfl).1,
    (empty_route_commands_noop initialState rfl rfl).2.1,
    (empty_route_commands_noop initialState rfl rfl).2.2.1⟩

/-- C6: with `currentIndex` at the last position of a non-empty route, the
play handler restarts playback — `currentIndex` becomes 0, `isPlaying`
becomes true (whatever it was, so the handler neither no-ops nor toggles to
pause), and the resulting status is `playing`. -/
theorem play_at_end_restarts (s : SimState) (h : 0 < s.routeData.length)
    (h2 : s.currentIndex = s.routeData.length - 1) :
    togglePlay s = { s with currentIndex := 0, isPlaying := true } ∧
      (togglePlay s).currentIndex = 0 ∧ (togglePlay s).isPlaying = true ∧
      status (togglePlay s) = Status.playing := by
  have hc : s.routeData.length ≤ s.currentIndex + 1 := by omega
  have ht : togglePlay s = { s with currentIndex := 0, isPlaying := true } := by
    unfold togglePlay
    rw [if_pos hc]
  refine ⟨ht, by rw [ht], by rw [ht], ?_⟩
  rw [ht]
  unfold status tickerActive
  by_cases hl : s.routeData.length = 1
  · simp [hl]
  · have h2' : 2 ≤ s.routeData.length := by omega
    simp [show 0 + 1 < s.routeData.length by omega, show s.routeData.length ≠ 0 by omega]

theorem play_at_end_restarts_witness :
    0 < demoRoute2.length ∧
      (togglePlay { routeData := demoRoute2, currentIndex := 1, isPlaying := false }).currentIndex = 0 ∧
      status (togglePlay { routeData := demoRoute2, currentIndex := 1, isPlaying := false })
        = Status.playing :=
  ⟨by decide,
    (play_at_end_restarts { routeData := demoRoute2, currentIndex := 1, isPlaying := false }
      (by decide) (by decide)).2.1,
    (play_at_end_restarts { routeData := demoRoute2, currentIndex := 1, isPlaying := false }
      (by decide) (by decide)).2.2.2⟩

/-- C4: the validity invariant on `currentIndex` — on a non-empty route it
always denotes an existing waypoint — is preserved by the play/pause handler,
the reset handler and a tick; a tick moves the index by at most one and
clamps at the last index (at or past it the tick is the identity, so it never
wraps to 0); loading a route from a state at index 0 (the mount-time state in
which the data-loading effect runs) establishes the invariant. -/
theorem currentIndex_invariant :
    (∀ s : SimState, inv s →
      inv (togglePlay s) ∧ inv (resetSimulation s) ∧ inv (tick s)) ∧
    (∀ s : SimState, (tick s).currentIndex = s.currentIndex ∨
      (tick s).currentIndex = s.currentIndex + 1) ∧
    (∀ s : SimState, s.routeData.length ≤ s.currentIndex + 1 → tick s = s) ∧
    (∀ data : List Waypoint, ∀ s : SimState, s.currentIndex = 0 →
      inv (loadRoute data s)) := by
  refine ⟨?_, ?_, ?_, ?_⟩
  · intro s hs
    refine ⟨?_, ?_, ?_⟩
    · unfold togglePlay
      split_ifs <;> intro hpos <;> simp_all [inv]
    · unfold resetSimulation
      intro hpos
      simpa using hpos
    · unfold tick tickerActive tickBody
      split_ifs with ha hb <;> intro hpos <;> simp_all [inv]
  · intro s
    unfold tick tickerActive tickBody
    split_ifs <;> simp
  · intro s hend
    unfold tick tickerActive
    have : ¬(s.currentIndex + 1 < s.routeData.length) := by omega
    simp [this]
  · intro data s h0
    unfold loadRoute inv
    intro hpos
    simpa [h0] using hpos

theorem currentIndex_invariant_witness :
    inv { routeData := demoRoute2, currentIndex := 0, isPlaying := true } ∧
      inv (tick { routeData := demoRoute2, currentIndex := 0, isPlaying := true }) :=
  ⟨fun _ => by decide,
    (currentIndex_invariant.1 { routeData := demoRoute2, currentIndex := 0, isPlaying := true }
      (fun _ => by decide)).2.2⟩

lemma ticks_advance (route : List Waypoint) :
    ∀ k j, j + k < route.length →
      ticks k { routeData := route, currentIndex := j, isPlaying := true } =
        { routeData := route, currentIndex := j + k, isPlaying := true } := by
  intro k
  induction k with
  | zero =>
    intro j h
    simp [ticks]
  | succ n ih =>
    intro j h
    have h0 : 0 < route.length := by omega
    have h1 : j + 1 < route.length := by omega
    have h2 : ¬(route.length ≤ j + 1) := by omega
    have hstep : tick { routeData := route, currentIndex := j, isPlaying := true } =
        { routeData := route, currentIndex := j + 1, isPlaying := true } := by
      unfold tick tickerActive tickBody
      simp [h0, h1, h2]
    show ticks n (tick { routeData := route, currentIndex := j, isPlaying := true }) = _
    rw [hstep, ih (j + 1) (by omega), show j + 1 + n = j + (n + 1) by omega]

/-- C1 (amended): from `idle` on a route of length at least 2, the play
command followed by `length - 1` ticks drives `currentIndex` exactly to the
last slot (the terminal waypoint is never skipped), the resulting status is
`completed` with the ticker no longer scheduled, and one further tick is a
no-op on the whole state. -/
theorem playback_run_completes (route : List Waypoint) (h : 2 ≤ route.length) :
    status (loadRoute route initialState) = Status.idle ∧
    (ticks (route.length - 1) (togglePlay (loadRoute route initialState))).currentIndex
        = route.length - 1 ∧
    status (ticks (route.length - 1) (togglePlay (loadRoute route initialState)))
        = Status.completed ∧
    tickerActive (ticks (route.length - 1) (togglePlay (loadRoute route initialState)))
        = false ∧
    tick (ticks (route.length - 1) (togglePlay (loadRoute route initialState)))
        = ticks (route.length - 1) (togglePlay (loadRoute route initialState)) := by
  have hload : loadRoute route initialState =
      { routeData := route, currentIndex := 0, isPlaying := false } := rfl
  have htp : togglePlay (loadRoute route initialState) =
      { routeData := route, currentIndex := 0, isPlaying := true } := by
    rw [hload]
    unfold togglePlay
    rw [if_neg (by simp; omega)]
    rfl
  have hticks : ticks (route.length - 1) (togglePlay (loadRoute route initialState)) =
      { routeData := route, currentIndex := route.length - 1, isPlaying := true } := by
    rw [htp, ticks_advance route (route.length - 1) 0 (by omega)]
    simp
  have hstatus0 : status (loadRoute route initialState) = Status.idle := by
    rw [hload]
    unfold status tickerActive
    simp [show route.length ≠ 0 by omega, show ¬(route.length ≤ 0 + 1) by omega]
  have hnotick : tickerActive
      { routeData := route, currentIndex := route.length - 1, isPlaying := true } = false := by
    unfold tickerActive
    simp
    omega
  refine ⟨hstatus0, by rw [hticks], ?_, by rw [hticks, hnotick], ?_⟩
  · rw [hticks]
    unfold status
    rw [hnotick]
    simp [show route.length ≠ 0 by omega, show route.length ≤ route.length - 1 + 1 by omega,
      show 0 < route.length - 1 by omega]
  · rw [hticks]
    unfold tick
    rw [hnotick]
    simp

theorem playback_run_completes_witness :
    2 ≤ demoRoute2.length ∧
      (ticks (demoRoute2.length - 1) (togglePlay (loadRoute demoRoute2 initialState))).currentIndex
          = demoRoute2.length - 1 ∧
      status (ticks (demoRoute2.length - 1) (togglePlay (loadRoute demoRoute2 initialState)))
          = Status.completed :=
  ⟨by decide, (playback_run_completes demoRoute2 (by decide)).2.1,
    (playback_run_completes demoRoute2 (by decide)).2.2.1⟩

/-- C1 counterexample: on the non-empty single-waypoint route the claim as
stated fails — play followed by `length - 1 = 0` ticks reaches the last index
but leaves the code playing (`isPlaying` is set by the restart branch of the
handler and no ticker ever runs), so the status is `playing`, not
`completed`. -/
theorem single_waypoint_play_not_completed :
    (ticks (demoRoute1.length - 1) (togglePlay (loadRoute demoRoute1 initialState))).currentIndex
        = demoRoute1.length - 1 ∧
    (ticks (demoRoute1.length - 1) (togglePlay (loadRoute demoRoute1 initialState))).isPlaying
        = true ∧
    status (ticks (demoRoute1.length - 1) (togglePlay (loadRoute demoRoute1 initialState)))
        = Status.playing ∧
    status (ticks (demoRoute1.length - 1) (togglePlay (loadRoute demoRoute1 initialState)))
        ≠ Status.completed := by
  refine ⟨by decide, by decide, by decide, by decide⟩

/-- C5: for a valid interior index (both points present), the speed
calculator returns the `N/A` sentinel exactly when the millisecond delta
between the two timestamps is zero or negative; for a positive delta the
elapsed hours are positive (no division by zero) and the result is the
distance divided by the elapsed hours, rounded to two decimals. -/
theorem speed_na_iff_nonpositive_delta (seq : List Waypoint) (i : ℤ)
    (hge : 1 ≤ i) (hle : i ≤ (seq.length : ℤ) - 1) :
    ∃ curr prev : Waypoint,
      jsIndex seq i = some curr ∧ jsIndex seq (i - 1) = some prev ∧
      (calculateSpeedKmH i seq = SpeedResult.na ↔
        curr.timestamp - prev.timestamp ≤ 0) ∧
      (0 < curr.timestamp - prev.timestamp →
        0 < ((curr.timestamp - prev.timestamp : ℤ) : ℝ) / (1000 * 60 * 60) ∧
        calculateSpeedKmH i seq =
          SpeedResult.speed (round2 (distBetween prev curr /
            (((curr.timestamp - prev.timestamp : ℤ) : ℝ) / (1000 * 60 * 60))))) := by
  have hi : i.toNat < seq.length := by omega
  have hi1 : (i - 1).toNat < seq.length := by omega
  have e1 : jsIndex seq i = some seq[i.toNat] := by
    unfold jsIndex
    rw [if_pos (by omega)]
    exact List.getElem?_eq_getElem hi
  have e2 : jsIndex seq (i - 1) = some seq[(i - 1).toNat] := by
    unfold jsIndex
    rw [if_pos (by omega)]
    exact List.getElem?_eq_getElem hi1
  have hcond : ¬(i = 0 ∨ seq.length ≤ 1) := by
    push_neg
    omega
  have main : calculateSpeedKmH i seq =
      (if (((seq[i.toNat].timestamp - seq[(i - 1).toNat].timestamp : ℤ) : ℝ)
            / (1000 * 60 * 60)) ≤ 0
       then SpeedResult.na
       else SpeedResult.speed (round2 (distBetween seq[(i - 1).toNat] seq[i.toNat] /
         (((seq[i.toNat].timestamp - seq[(i - 1).toNat].timestamp : ℤ) : ℝ)
           / (1000 * 60 * 60))))) := by
    unfold calculateSpeedKmH
    rw [if_neg hcond, e1, e2]
  have hc : (0 : ℝ) < 1000 * 60 * 60 := by norm_num
  have hkey : (((seq[i.toNat].timestamp - seq[(i - 1).toNat].timestamp : ℤ) : ℝ)
      / (1000 * 60 * 60)) ≤ 0
      ↔ seq[i.toNat].timestamp - seq[(i - 1).toNat].timestamp ≤ 0 := by
    rw [div_le_iff₀ hc, zero_mul, Int.cast_nonpos]
  refine ⟨seq[i.toNat], seq[(i - 1).toNat], e1, e2, ?_, ?_⟩
  · rw [main]
    by_cases hd : seq[i.toNat].timestamp - seq[(i - 1).toNat].timestamp ≤ 0
    · rw [if_pos (hkey.mpr hd)]
      exact iff_of_true rfl hd
    · rw [if_neg (fun hcontra => hd (hkey.mp hcontra))]
      exact iff_of_false (by simp) hd
  · intro hpos
    have hne : ¬((((seq[i.toNat].timestamp - seq[(i - 1).toNat].timestamp : ℤ) : ℝ)
        / (1000 * 60 * 60)) ≤ 0) :=
      fun hcontra => absurd (hkey.mp hcontra) (by omega)
    refine ⟨div_pos (by exact_mod_cast hpos) hc, ?_⟩
    rw [main, if_neg hne]

theorem speed_na_iff_nonpositive_delta_witness :
    (1 : ℤ) ≤ 1 ∧ (1 : ℤ) ≤ (demoRoute2.length : ℤ) - 1 ∧
      (∃ curr prev : Waypoint,
        jsIndex demoRoute2 1 = some curr ∧ jsIndex demoRoute2 (1 - 1) = some prev ∧
        (calculateSpeedKmH 1 demoRoute2 = SpeedResult.na ↔
          curr.timestamp - prev.timestamp ≤ 0) ∧
        (0 < curr.timestamp - prev.timestamp →
          0 < ((curr.timestamp - prev.timestamp : ℤ) : ℝ) / (1000 * 60 * 60) ∧
          calculateSpeedKmH 1 demoRoute2 =
            SpeedResult.speed (round2 (distBetween prev curr /
              (((curr.timestamp - prev.timestamp : ℤ) : ℝ) / (1000 * 60 * 60)))))) :=
  ⟨by decide, by decide, speed_na_iff_nonpositive_delta demoRoute2 1 (by decide) (by decide)⟩

/-- The interpolation loop registered at clock 0 toward target `(1, 0)` from
`(0, 0)` with the default 2000 ms duration. -/
def loopA : AnimLoop :=
  { startLat := 0, startLng := 0, endLat := 1, endLng := 0,
    startTime := 0, duration := 2000 }

/-- The superseding loop registered at clock 1000 toward target `(0, 1)`. -/
def loopB : AnimLoop :=
  { startLat := 0, startLng := 0, endLat := 0, endLng := 1,
    startTime := 1000, duration := 2000 }

/-- Animator state after a target change to `(1, 0)` at clock 0 superseded by
a target change to `(0, 1)` at clock 1000, starting from a marker resting at
`(0, 0)`. -/
def animScenario : AnimatorState :=
  animEffect (0, 1) 1000 2000 (animEffect (1, 0) 0 2000
    { loops := [], prevPositionRef := some (0, 0), markerPos := some (0, 0) })

/-- C2 evidence: the effect of `AnimatedMarker` never cancels an in-flight
loop (it has no cleanup and the source contains no `cancelAnimationFrame`),
so after the superseding target change at clock 1000 the old loop toward
`(1, 0)` is still scheduled, it runs again in the frame at clock 1500 — where
it writes the stale interpolated position `(3/4, 0)`, mutating the marker
toward the superseded target — and at clock 2500 it finalizes by writing the
old target `(1, 0)` and storing it in `prevPositionRef`, after which the
newest loop still converges on `(0, 1)` at clock 3000. -/
theorem superseded_loop_not_cancelled :
    animScenario.loops = [loopA, loopB] ∧
    loopA ∈ (runFrame 1500 animScenario).loops ∧
    (runFrame 1500 animScenario).loops = [loopA, loopB] ∧
    frameWrite 1500 loopA = (3 / 4, 0) ∧
    (runFrame 2500 animScenario).prevPositionRef = some (1, 0) ∧
    (runFrame 3000 (runFrame 2500 animScenario)).markerPos = some (0, 1) := by
  refine ⟨?_, ?_, ?_, ?_, ?_, ?_⟩ <;>
    norm_num [animScenario, animEffect, runFrame, frameWrite, loopA, loopB, min_def,
      Prod.ext_iff, Prod.fst_zero, Prod.snd_zero]
